import Mathlib

/-!
# usbpower: the identifier parser and the suspend/resume pipeline

A shallow embedding of `usbpower.c` (one C file: `convertHexId` and `main`).

* A C string is the list of its bytes before the terminating NUL (`CString`);
  `strlen` is the length of that list and `arg[i]` is `List.getD` with the NUL
  byte as default.  The code only compares bytes with ASCII literals, so the
  signedness of `char` plays no part.
* `SInt32` arithmetic (the accumulator of `convertHexId`, the device counter
  of `main`) is integer arithmetic followed by `wrapSInt32`.
* The operating system is a response script (`Host`): what every IOKit and
  CoreFoundation call answers.  The iterator of matching services is a finite
  list of devices, `IOIteratorNext` returning 0 at its end.  `main` returns
  its exit status together with the ordered list of calls and messages it
  issued (`Event`); a run that leaves the defined behaviour of C has no
  status.
-/

namespace UsbPower

/-! ## C strings and machine integers -/

/-- A C string: the bytes before the terminating NUL. -/
abbrev CString := List Nat

/-- The bytes of an ASCII literal. -/
def cstr (s : String) : CString := s.toList.map Char.toNat

/-- Two's-complement wrap-around of a 32-bit signed integer. -/
def wrapSInt32 (x : Int) : Int := (x + 2 ^ 31) % 2 ^ 32 - 2 ^ 31

/-! ## convertHexId (usbpower.c, lines 30-69) -/

/-- The `for(i=2; i<6; i++)` loop of `convertHexId`: the first argument is the
number of iterations still to run (`6 - i`), then `i` and `result`.  A byte
that is no hexadecimal digit returns `-1` from the function at once. -/
def convertHexIdLoop (arg : CString) : Nat → Nat → Int → Int
  | 0, _, result => result
  | n + 1, i, result =>
    let result := wrapSInt32 (result * 16)
    let c := arg.getD i 0
    if '0'.toNat ≤ c ∧ c ≤ '9'.toNat then
      convertHexIdLoop arg n (i + 1) (wrapSInt32 (result + ((c : Int) - '0'.toNat)))
    else if 'a'.toNat ≤ c ∧ c ≤ 'f'.toNat then
      convertHexIdLoop arg n (i + 1) (wrapSInt32 (result + (10 + (c : Int) - 'a'.toNat)))
    else if 'A'.toNat ≤ c ∧ c ≤ 'F'.toNat then
      convertHexIdLoop arg n (i + 1) (wrapSInt32 (result + (10 + (c : Int) - 'A'.toNat)))
    else
      -1

/-- The function `convertHexId`: converts a string such as `0x0001` to a
number, `-1` if the string is not valid. -/
def convertHexId (arg : CString) : Int :=
  if arg.length ≠ 6 then
    -1
  else if arg.getD 0 0 ≠ '0'.toNat ∨ (arg.getD 1 0 ≠ 'x'.toNat ∧ arg.getD 1 0 ≠ 'X'.toNat) then
    -1
  else
    convertHexIdLoop arg 4 2 0

/-! ## The host and what main does to it -/

/-- What the host answers to the calls `main` makes on one enumerated device.
The statuses of `IODestroyPlugInInterface` and of `IOObjectRelease` are part of
the answer although the source discards them. -/
structure Device where
  /-- the name of the `io_service_t` that `IOIteratorNext` returns -/
  usbService : Nat
  /-- status of `IOCreatePlugInInterfaceForService` -/
  createPlugInErr : Int
  /-- whether that call leaves `pluginInterface` null -/
  pluginInterfaceNull : Bool
  /-- status of `QueryInterface` on the plugin; `deviceInterface` is set to an
  interface exactly when it is 0 -/
  queryInterfaceErr : Int
  /-- status of `IODestroyPlugInInterface` -/
  destroyPlugInErr : Int
  /-- status of `USBDeviceOpen` -/
  openErr : Int
  /-- status of `USBDeviceSuspend`, given the flag it is passed -/
  suspendErr : Bool → Int
  /-- status of `USBDeviceClose` -/
  closeErr : Int
  /-- value of `Release` on the device interface -/
  releaseErr : Int
  /-- status of `IOObjectRelease` on the service -/
  objectReleaseErr : Int

/-- What the host answers to the calls of one run.  `IOIteratorNext` yields the
devices of `matching productId vendorId` one by one, then 0. -/
structure Host where
  /-- status of `IOMasterPort` -/
  masterPortErr : Int
  /-- whether `IOServiceMatching` returns null -/
  matcherNull : Bool
  /-- whether `CFNumberCreate` returns null for the product identifier -/
  productNumberNull : Bool
  /-- whether `CFNumberCreate` returns null for the vendor identifier -/
  vendorNumberNull : Bool
  /-- status of `IOServiceGetMatchingServices` -/
  matchingServicesErr : Int
  /-- the devices the iterator yields for a product and a vendor identifier -/
  matching : Int → Int → List Device

/-- The object handed to `IOObjectRelease`. -/
inductive IOObject
  | usbService (name : Nat)
  | iterator
  deriving DecidableEq, Repr

/-- The key of an entry added to the matching dictionary. -/
inductive MatchKey
  | kUSBProductID
  | kUSBVendorID
  deriving DecidableEq, Repr

/-- The texts the program prints, with their arguments. -/
inductive Message
  /-- the usage text (line 91) -/
  | usage
  /-- Invalid argument '%s': expecting suspend, resume -/
  | invalidArgument (arg : CString)
  /-- Invalid product id '%s': expecting four-digit hexadecimal e.g. 0x0040 -/
  | invalidProductId (arg : CString)
  /-- Invalid vendor id '%s': expecting four-digit hexadecimal e.g. 0x045e -/
  | invalidVendorId (arg : CString)
  /-- Failed to open master port [err %08x] -/
  | failedMasterPort (err : Int)
  /-- Failed to create matching dictionary -/
  | failedMatchingDictionary
  /-- Failed to create number reference for product ID -/
  | failedProductNumber
  /-- Failed to create number reference for vendor ID -/
  | failedVendorNumber
  /-- Failed to get matching servivces [err %08x] -/
  | failedMatchingServices (err : Int)
  /-- Failed to create plugin interface for service [err %08x] -/
  | failedPlugInInterface (err : Int)
  /-- Service did not return plugin interface -/
  | noPlugInInterface
  /-- Error opening device [err %08x] -/
  | errorOpening (err : Int)
  /-- Error suspending or resuming device [err %08x] -/
  | errorSuspendResume (err : Int)
  /-- Error closing device [err %08x] -/
  | errorClosing (err : Int)
  /-- Error releading device interface [err %08x] -/
  | errorReleasing (err : Int)
  /-- Device with product ID 0x%04x and vendor ID 0x%04x not found -/
  | notFound (productId vendorId : Int)
  deriving DecidableEq, Repr

/-- One observable action of `main`: a line of output or a call into the host.
The calls on a device carry the `io_service_t` name of that device.  The
helpers that only build an argument (`CFSTR`, `CFUUIDGetUUIDBytes`,
`mach_task_self`) are left out. -/
inductive Event
  | printf (m : Message)
  | fprintf (m : Message)
  | IOMasterPort
  | IOServiceMatching
  | CFNumberCreate (value : Int)
  | CFDictionaryAddValue (key : MatchKey) (value : Int)
  | CFRelease
  | IOServiceGetMatchingServices
  | IOIteratorNext
  | IOCreatePlugInInterfaceForService (usbService : Nat)
  | QueryInterface (usbService : Nat)
  | IODestroyPlugInInterface (usbService : Nat)
  | USBDeviceOpen (usbService : Nat)
  | USBDeviceSuspend (usbService : Nat) (suspend : Bool)
  | USBDeviceClose (usbService : Nat)
  | Release (usbService : Nat)
  | IOObjectRelease (object : IOObject)
  | mach_port_deallocate
  deriving DecidableEq, Repr

/-- Whether an event is a call into the host (and not a line of output). -/
def Event.isHostCall : Event → Bool
  | .printf _ => false
  | .fprintf _ => false
  | _ => true

/-- The outcome of a run of `main`: the value it returns, the value of the
local `count` at that point (`none` before `count = 0` on line 175), and the
events in the order they happened.  `status` is `none` when the source gives
the run no defined behaviour from that point on: `main` calls through
`deviceInterface` on line 194 although the interface query did not set it;
`trace` then holds the events up to that point. -/
structure Run where
  status : Option Int
  count : Option Int
  trace : List Event
  deriving DecidableEq, Repr

/-- The events `es` followed by the run `r`. -/
def Run.after (es : List Event) (r : Run) : Run :=
  { r with trace := es ++ r.trace }

/-- The macro `CHECKRETURN(err, message)`: on a non-zero `err` print the
message with the status and return `-1`, otherwise go on with `rest`. -/
def CHECKRETURN (err : Int) (message : Int → Message) (count : Option Int) (rest : Run) : Run :=
  if err ≠ 0 then ⟨some (-1), count, [.fprintf (message err)]⟩ else rest

/-- Lines 176-226 of `main`: the `while((usbService = IOIteratorNext(iterator)))`
loop on the devices the iterator still holds, with the current value of the
`SInt32` counter `count`, followed by the release of the iterator and of the
master port and the check of `count`.

The status of `QueryInterface` is stored in `err` and not tested.
`deviceInterface` is an uninitialised local that only a successful
`QueryInterface` sets to an interface; after a failed query the call through
it on line 194 has no defined behaviour, and the run ends there with status
`none`. -/
def whileLoop (suspend : Bool) (productId vendorId : Int) : List Device → Int → Run
  | [], count =>
    Run.after [.IOIteratorNext, .IOObjectRelease .iterator, .mach_port_deallocate]
      (if count = 0 then ⟨some (-1), some count, [.fprintf (.notFound productId vendorId)]⟩
       else ⟨some 0, some count, []⟩)
  | d :: rest, count =>
    Run.after [.IOIteratorNext, .IOCreatePlugInInterfaceForService d.usbService] <|
    CHECKRETURN d.createPlugInErr .failedPlugInInterface (some count) <|
    if d.pluginInterfaceNull then ⟨some (-1), some count, [.fprintf .noPlugInInterface]⟩ else
    Run.after [.QueryInterface d.usbService, .IODestroyPlugInInterface d.usbService] <|
    if d.queryInterfaceErr ≠ 0 then ⟨none, some count, []⟩ else
    Run.after [.USBDeviceOpen d.usbService] <|
    CHECKRETURN d.openErr .errorOpening (some count) <|
    Run.after [.USBDeviceSuspend d.usbService suspend] <|
    CHECKRETURN (d.suspendErr suspend) .errorSuspendResume (some count) <|
    Run.after [.USBDeviceClose d.usbService] <|
    CHECKRETURN d.closeErr .errorClosing (some count) <|
    Run.after [.Release d.usbService] <|
    CHECKRETURN d.releaseErr .errorReleasing (some count) <|
    Run.after [.IOObjectRelease (.usbService d.usbService)] <|
    whileLoop suspend productId vendorId rest (wrapSInt32 (count + 1))

/-- Lines 138-226 of `main`, once the arguments are parsed: the master port,
the matching dictionary with the two identifiers, the enumeration, then the
loop. -/
def hostPhase (h : Host) (suspend : Bool) (productId vendorId : Int) : Run :=
  Run.after [.IOMasterPort] <|
  CHECKRETURN h.masterPortErr .failedMasterPort none <|
  Run.after [.IOServiceMatching] <|
  if h.matcherNull then ⟨some (-1), none, [.fprintf .failedMatchingDictionary]⟩ else
  Run.after [.CFNumberCreate productId] <|
  if h.productNumberNull then ⟨some (-1), none, [.fprintf .failedProductNumber]⟩ else
  Run.after [.CFDictionaryAddValue .kUSBProductID productId, .CFRelease,
    .CFNumberCreate vendorId] <|
  if h.vendorNumberNull then ⟨some (-1), none, [.fprintf .failedVendorNumber]⟩ else
  Run.after [.CFDictionaryAddValue .kUSBVendorID vendorId, .CFRelease,
    .IOServiceGetMatchingServices] <|
  CHECKRETURN h.matchingServicesErr .failedMatchingServices none <|
  whileLoop suspend productId vendorId (h.matching productId vendorId) 0

/-- Lines 124-226 of `main`, once `suspend` is set: the two identifiers are
parsed and checked, then the host is called. -/
def mainBody (h : Host) (suspend : Bool) (argv : List CString) : Run :=
  let productId := convertHexId (argv.getD 2 [])
  if productId = -1 then ⟨some (-1), none, [.fprintf (.invalidProductId (argv.getD 2 []))]⟩ else
  let vendorId := convertHexId (argv.getD 3 [])
  if vendorId = -1 then ⟨some (-1), none, [.fprintf (.invalidVendorId (argv.getD 3 []))]⟩ else
  hostPhase h suspend productId vendorId

/-- The function `main`, with `argc` the length of `argv`. -/
def main (h : Host) (argv : List CString) : Run :=
  if argv.length ≠ 4 then
    ⟨some 0, none, [.printf .usage]⟩
  else if argv.getD 1 [] = cstr "suspend" then
    mainBody h true argv
  else if argv.getD 1 [] = cstr "resume" then
    mainBody h false argv
  else
    ⟨some (-1), none, [.fprintf (.invalidArgument (argv.getD 1 []))]⟩

/-! ## The identifier format as the specification words it -/

/-- The sixteen digits with lower-case letters, in order of value. -/
def lowerDigits : CString := cstr "0123456789abcdef"

/-- The sixteen digits with upper-case letters, in order of value. -/
def upperDigits : CString := cstr "0123456789ABCDEF"

/-- A hexadecimal digit: one of 0-9, a-f, A-F. -/
def isHexDigit (c : Nat) : Prop := c ∈ lowerDigits ∨ c ∈ upperDigits

instance (c : Nat) : Decidable (isHexDigit c) := by
  unfold isHexDigit; infer_instance

/-- The value a hexadecimal digit denotes: its position among the sixteen
digits of its case. -/
def hexDigitValue (c : Nat) : Nat :=
  if c ∈ lowerDigits then lowerDigits.indexOf c else upperDigits.indexOf c

/-- A well-formed identifier: six characters, `0`, then `x` or `X`, then four
hexadecimal digits. -/
def WellFormed (arg : CString) : Prop :=
  arg.length = 6 ∧ arg.getD 0 0 = '0'.toNat ∧
    (arg.getD 1 0 = 'x'.toNat ∨ arg.getD 1 0 = 'X'.toNat) ∧
    isHexDigit (arg.getD 2 0) ∧ isHexDigit (arg.getD 3 0) ∧
    isHexDigit (arg.getD 4 0) ∧ isHexDigit (arg.getD 5 0)

instance (arg : CString) : Decidable (WellFormed arg) := by
  unfold WellFormed; infer_instance

/-- A malformed identifier, in the words of the specification: wrong length, or
missing prefix, or a non-hexadecimal character among the last four. -/
def Malformed (arg : CString) : Prop :=
  arg.length ≠ 6 ∨ ¬ (arg.getD 0 0 = '0'.toNat ∧
    (arg.getD 1 0 = 'x'.toNat ∨ arg.getD 1 0 = 'X'.toNat)) ∨
    ∃ i, 2 ≤ i ∧ i < 6 ∧ ¬ isHexDigit (arg.getD i 0)

/-- The number the last four characters of an identifier denote in base 16. -/
def denotedValue (arg : CString) : Nat :=
  hexDigitValue (arg.getD 2 0) * 16 ^ 3 + hexDigitValue (arg.getD 3 0) * 16 ^ 2 +
    hexDigitValue (arg.getD 4 0) * 16 + hexDigitValue (arg.getD 5 0)

/-- ASCII lower-casing of one byte. -/
def lowerCase (c : Nat) : Nat :=
  if 'A'.toNat ≤ c ∧ c ≤ 'Z'.toNat then c + 32 else c

/-- Two strings that differ only in letter case. -/
def SameUpToCase (a b : CString) : Prop := a.map lowerCase = b.map lowerCase

instance (a b : CString) : Decidable (SameUpToCase a b) := by
  unfold SameUpToCase; infer_instance

/-! ## Vocabulary of the claims on main -/

/-- Valid arguments: the program name, `suspend` or `resume`, and two
well-formed identifiers. -/
def ValidArgs (argv : List CString) : Prop :=
  argv.length = 4 ∧ (argv.getD 1 [] = cstr "suspend" ∨ argv.getD 1 [] = cstr "resume") ∧
    WellFormed (argv.getD 2 []) ∧ WellFormed (argv.getD 3 [])

instance (argv : List CString) : Decidable (ValidArgs argv) := by
  unfold ValidArgs; infer_instance

/-- The flag a valid argument vector asks for: true for `suspend`. -/
def directive (argv : List CString) : Bool := decide (argv.getD 1 [] = cstr "suspend")

/-- The master port, the matching dictionary with its two numbers and the
enumeration call all succeed. -/
def SetupOk (h : Host) : Prop :=
  h.masterPortErr = 0 ∧ h.matcherNull = false ∧ h.productNumberNull = false ∧
    h.vendorNumberNull = false ∧ h.matchingServicesErr = 0

instance (h : Host) : Decidable (SetupOk h) := by
  unfold SetupOk; infer_instance

/-- Every call on the device succeeds: plugin creation (with a plugin),
interface query, plugin destruction, open, directive, close, interface release
and service release. -/
def Device.AllSucceed (suspend : Bool) (d : Device) : Prop :=
  d.createPlugInErr = 0 ∧ d.pluginInterfaceNull = false ∧ d.queryInterfaceErr = 0 ∧
    d.destroyPlugInErr = 0 ∧ d.openErr = 0 ∧ d.suspendErr suspend = 0 ∧ d.closeErr = 0 ∧
    d.releaseErr = 0 ∧ d.objectReleaseErr = 0

instance (suspend : Bool) (d : Device) : Decidable (d.AllSucceed suspend) := by
  unfold Device.AllSucceed; infer_instance

/-- The steps whose outcome `main` tests all succeed on the device: plugin
creation (with a plugin), open, directive, close and interface release. -/
def Device.CheckedOk (suspend : Bool) (d : Device) : Prop :=
  d.createPlugInErr = 0 ∧ d.pluginInterfaceNull = false ∧ d.openErr = 0 ∧
    d.suspendErr suspend = 0 ∧ d.closeErr = 0 ∧ d.releaseErr = 0

instance (suspend : Bool) (d : Device) : Decidable (d.CheckedOk suspend) := by
  unfold Device.CheckedOk; infer_instance

/-- The product identifier `main` parses from its arguments. -/
def productIdOf (argv : List CString) : Int := convertHexId (argv.getD 2 [])

/-- The vendor identifier `main` parses from its arguments. -/
def vendorIdOf (argv : List CString) : Int := convertHexId (argv.getD 3 [])

/-- The devices the host enumerates for the identifiers of the arguments. -/
def matchingDevices (h : Host) (argv : List CString) : List Device :=
  h.matching (productIdOf argv) (vendorIdOf argv)

/-- The events up to and including the enumeration call, when all of them
succeed. -/
def setupEvents (productId vendorId : Int) : List Event :=
  [.IOMasterPort, .IOServiceMatching, .CFNumberCreate productId,
   .CFDictionaryAddValue .kUSBProductID productId, .CFRelease, .CFNumberCreate vendorId,
   .CFDictionaryAddValue .kUSBVendorID vendorId, .CFRelease, .IOServiceGetMatchingServices]

/-- The events of one complete iteration of the loop on a device. -/
def transitionEvents (suspend : Bool) (d : Device) : List Event :=
  [.IOIteratorNext, .IOCreatePlugInInterfaceForService d.usbService,
   .QueryInterface d.usbService, .IODestroyPlugInInterface d.usbService,
   .USBDeviceOpen d.usbService, .USBDeviceSuspend d.usbService suspend,
   .USBDeviceClose d.usbService, .Release d.usbService,
   .IOObjectRelease (.usbService d.usbService)]

/-- The events of the iteration on a device up to its first failing tested
step: the calls made so far, the failing call last, then the message of that
call (no event when no tested step fails). -/
def abortedTransition (suspend : Bool) (d : Device) : List Event :=
  if d.createPlugInErr ≠ 0 then
    [.IOIteratorNext, .IOCreatePlugInInterfaceForService d.usbService,
     .fprintf (.failedPlugInInterface d.createPlugInErr)]
  else if d.pluginInterfaceNull then
    [.IOIteratorNext, .IOCreatePlugInInterfaceForService d.usbService,
     .fprintf .noPlugInInterface]
  else if d.openErr ≠ 0 then
    [.IOIteratorNext, .IOCreatePlugInInterfaceForService d.usbService,
     .QueryInterface d.usbService, .IODestroyPlugInInterface d.usbService,
     .USBDeviceOpen d.usbService, .fprintf (.errorOpening d.openErr)]
  else if d.suspendErr suspend ≠ 0 then
    [.IOIteratorNext, .IOCreatePlugInInterfaceForService d.usbService,
     .QueryInterface d.usbService, .IODestroyPlugInInterface d.usbService,
     .USBDeviceOpen d.usbService, .USBDeviceSuspend d.usbService suspend,
     .fprintf (.errorSuspendResume (d.suspendErr suspend))]
  else if d.closeErr ≠ 0 then
    [.IOIteratorNext, .IOCreatePlugInInterfaceForService d.usbService,
     .QueryInterface d.usbService, .IODestroyPlugInInterface d.usbService,
     .USBDeviceOpen d.usbService, .USBDeviceSuspend d.usbService suspend,
     .USBDeviceClose d.usbService, .fprintf (.errorClosing d.closeErr)]
  else if d.releaseErr ≠ 0 then
    [.IOIteratorNext, .IOCreatePlugInInterfaceForService d.usbService,
     .QueryInterface d.usbService, .IODestroyPlugInInterface d.usbService,
     .USBDeviceOpen d.usbService, .USBDeviceSuspend d.usbService suspend,
     .USBDeviceClose d.usbService, .Release d.usbService,
     .fprintf (.errorReleasing d.releaseErr)]
  else
    []

/-- The counter after `n` more increments `count++`. -/
def countAfter (count : Int) : Nat → Int
  | 0 => count
  | n + 1 => countAfter (wrapSInt32 (count + 1)) n

/-- The events once the iterator is exhausted, up to the release of the master
port. -/
def closingEvents : List Event :=
  [.IOIteratorNext, .IOObjectRelease .iterator, .mach_port_deallocate]

/-- An event with the flag of a directive call replaced by `b`. -/
def Event.withDirective (b : Bool) : Event → Event
  | .USBDeviceSuspend n _ => .USBDeviceSuspend n b
  | e => e

/-- A device on which every call succeeds. -/
def okDevice (usbService : Nat) : Device :=
  { usbService := usbService, createPlugInErr := 0, pluginInterfaceNull := false,
    queryInterfaceErr := 0, destroyPlugInErr := 0, openErr := 0, suspendErr := fun _ => 0,
    closeErr := 0, releaseErr := 0, objectReleaseErr := 0 }

/-- A device whose `QueryInterface` answers `E_NOINTERFACE` (0x80000004). -/
def queryFailDevice (usbService : Nat) : Device :=
  { okDevice usbService with queryInterfaceErr := -2147483644 }

/-- A device whose `USBDeviceOpen` answers `kIOReturnExclusiveAccess`
(0xe00002c5). -/
def openFailDevice (usbService : Nat) : Device :=
  { okDevice usbService with openErr := -536870203 }

/-- A device whose `USBDeviceSuspend` answers `kIOReturnNotResponding`
(0xe00002ed) whatever the flag. -/
def suspendFailDevice (usbService : Nat) : Device :=
  { okDevice usbService with suspendErr := fun _ => -536870163 }

/-- A device whose `IOObjectRelease` answers `KERN_INVALID_NAME` (15). -/
def releaseStatusDevice (usbService : Nat) : Device :=
  { okDevice usbService with objectReleaseErr := 15 }

/-- A host on which every setup call succeeds and whose iterator yields `devs`. -/
def hostWith (devs : List Device) : Host :=
  { masterPortErr := 0, matcherNull := false, productNumberNull := false,
    vendorNumberNull := false, matchingServicesErr := 0, matching := fun _ _ => devs }

/-- The command line `usbpower suspend 0x0040 0x045e` of the usage text. -/
def suspendArgs : List CString :=
  [cstr "usbpower", cstr "suspend", cstr "0x0040", cstr "0x045e"]

/-- The command line `usbpower resume 0x0040 0x045e`. -/
def resumeArgs : List CString :=
  [cstr "usbpower", cstr "resume", cstr "0x0040", cstr "0x045e"]

/-! ## Lemmas on convertHexId -/

theorem isHexDigit_iff (c : Nat) :
    isHexDigit c ↔ (48 ≤ c ∧ c ≤ 57) ∨ (97 ≤ c ∧ c ≤ 102) ∨ (65 ≤ c ∧ c ≤ 70) := by
  simp only [isHexDigit, lowerDigits, upperDigits, cstr]
  simp
  omega

theorem hexDigitValue_digit (c : Nat) (h : 48 ≤ c ∧ c ≤ 57) : hexDigitValue c = c - 48 := by
  obtain ⟨h1, h2⟩ := h
  interval_cases c <;> decide

theorem hexDigitValue_lower (c : Nat) (h : 97 ≤ c ∧ c ≤ 102) :
    hexDigitValue c = 10 + c - 97 := by
  obtain ⟨h1, h2⟩ := h
  interval_cases c <;> decide

theorem hexDigitValue_upper (c : Nat) (h : 65 ≤ c ∧ c ≤ 70) :
    hexDigitValue c = 10 + c - 65 := by
  obtain ⟨h1, h2⟩ := h
  interval_cases c <;> decide

theorem hexDigitValue_lt (c : Nat) (h : isHexDigit c) : hexDigitValue c < 16 := by
  rcases (isHexDigit_iff c).1 h with h | h | h
  · rw [hexDigitValue_digit c h]; omega
  · rw [hexDigitValue_lower c h]; omega
  · rw [hexDigitValue_upper c h]; omega

/-- The prefix test of the code fails exactly when the prefix is `0x` or `0X`. -/
theorem prefix_test (a b : Nat) :
    (a ≠ '0'.toNat ∨ (b ≠ 'x'.toNat ∧ b ≠ 'X'.toNat)) ↔
      ¬ (a = '0'.toNat ∧ (b = 'x'.toNat ∨ b = 'X'.toNat)) := by
  simp only [Char.reduceToNat]
  omega

/-- One iteration on a hexadecimal digit shifts the accumulator and adds the
digit, without overflow as long as the accumulator is below `2 ^ 24`. -/
theorem convertHexIdLoop_digit (arg : CString) (n i : Nat) (r : Int)
    (hc : isHexDigit (arg.getD i 0)) (h0 : 0 ≤ r) (h1 : r < 2 ^ 24) :
    convertHexIdLoop arg (n + 1) i r
      = convertHexIdLoop arg n (i + 1) (r * 16 + (hexDigitValue (arg.getD i 0) : Nat)) := by
  have hw : wrapSInt32 (r * 16) = r * 16 := by
    unfold wrapSInt32; omega
  rcases (isHexDigit_iff _).1 hc with h | h | h
  · have hv := hexDigitValue_digit _ h
    have hw2 : wrapSInt32 (r * 16 + ((arg.getD i 0 : Nat) - 48)) =
        r * 16 + (hexDigitValue (arg.getD i 0) : Nat) := by
      unfold wrapSInt32; omega
    simp only [convertHexIdLoop, hw, Char.reduceToNat, Nat.cast_ofNat]
    rw [if_pos h, hw2]
  · have hv := hexDigitValue_lower _ h
    have hw2 : wrapSInt32 (r * 16 + (10 + (arg.getD i 0 : Nat) - 97)) =
        r * 16 + (hexDigitValue (arg.getD i 0) : Nat) := by
      unfold wrapSInt32; omega
    simp only [convertHexIdLoop, hw, Char.reduceToNat, Nat.cast_ofNat]
    rw [if_neg (by omega), if_pos h, hw2]
  · have hv := hexDigitValue_upper _ h
    have hw2 : wrapSInt32 (r * 16 + (10 + (arg.getD i 0 : Nat) - 65)) =
        r * 16 + (hexDigitValue (arg.getD i 0) : Nat) := by
      unfold wrapSInt32; omega
    simp only [convertHexIdLoop, hw, Char.reduceToNat, Nat.cast_ofNat]
    rw [if_neg (by omega), if_neg (by omega), if_pos h, hw2]

/-- One iteration on a character that is no hexadecimal digit returns `-1`. -/
theorem convertHexIdLoop_bad (arg : CString) (n i : Nat) (r : Int)
    (hc : ¬ isHexDigit (arg.getD i 0)) : convertHexIdLoop arg (n + 1) i r = -1 := by
  rw [isHexDigit_iff] at hc
  simp only [convertHexIdLoop, Char.reduceToNat]
  rw [if_neg (by omega), if_neg (by omega), if_neg (by omega)]

/-- The parser on a well-formed identifier returns the denoted number. -/
theorem convertHexId_of_wellFormed (arg : CString) (h : WellFormed arg) :
    convertHexId arg = (denotedValue arg : Nat) := by
  obtain ⟨hl, h0, h1, h2, h3, h4, h5⟩ := h
  have b2 := hexDigitValue_lt _ h2
  have b3 := hexDigitValue_lt _ h3
  have b4 := hexDigitValue_lt _ h4
  have b5 := hexDigitValue_lt _ h5
  unfold convertHexId
  rw [if_neg (by simp [hl]), if_neg (by rw [prefix_test]; exact not_not.2 ⟨h0, h1⟩)]
  rw [convertHexIdLoop_digit arg 3 2 0 h2 (by norm_num) (by norm_num)]
  rw [convertHexIdLoop_digit arg 2 3 _ h3 (by omega) (by omega)]
  rw [convertHexIdLoop_digit arg 1 4 _ h4 (by omega) (by omega)]
  rw [convertHexIdLoop_digit arg 0 5 _ h5 (by omega) (by omega)]
  simp only [convertHexIdLoop, denotedValue]
  push_cast
  ring

theorem denotedValue_le (arg : CString) (h : WellFormed arg) : denotedValue arg ≤ 65535 := by
  obtain ⟨_, _, _, h2, h3, h4, h5⟩ := h
  have b2 := hexDigitValue_lt _ h2
  have b3 := hexDigitValue_lt _ h3
  have b4 := hexDigitValue_lt _ h4
  have b5 := hexDigitValue_lt _ h5
  unfold denotedValue
  omega

/-- The parser on a malformed identifier returns `-1`. -/
theorem convertHexId_of_not_wellFormed (arg : CString) (h : ¬ WellFormed arg) :
    convertHexId arg = -1 := by
  unfold convertHexId
  by_cases hl : arg.length = 6
  · rw [if_neg (by simp [hl])]
    by_cases hp : arg.getD 0 0 = '0'.toNat ∧
        (arg.getD 1 0 = 'x'.toNat ∨ arg.getD 1 0 = 'X'.toNat)
    · rw [if_neg (by rw [prefix_test]; exact not_not.2 hp)]
      by_cases h2 : isHexDigit (arg.getD 2 0)
      · rw [convertHexIdLoop_digit arg 3 2 0 h2 (by norm_num) (by norm_num)]
        have b2 := hexDigitValue_lt _ h2
        by_cases h3 : isHexDigit (arg.getD 3 0)
        · rw [convertHexIdLoop_digit arg 2 3 _ h3 (by omega) (by omega)]
          have b3 := hexDigitValue_lt _ h3
          by_cases h4 : isHexDigit (arg.getD 4 0)
          · rw [convertHexIdLoop_digit arg 1 4 _ h4 (by omega) (by omega)]
            have b4 := hexDigitValue_lt _ h4
            by_cases h5 : isHexDigit (arg.getD 5 0)
            · exact absurd ⟨hl, hp.1, hp.2, h2, h3, h4, h5⟩ h
            · exact convertHexIdLoop_bad arg 0 5 _ h5
          · exact convertHexIdLoop_bad arg 1 4 _ h4
        · exact convertHexIdLoop_bad arg 2 3 _ h3
      · exact convertHexIdLoop_bad arg 3 2 _ h2
    · rw [if_pos (by rw [prefix_test]; exact hp)]
  · rw [if_pos hl]

theorem malformed_iff (arg : CString) : Malformed arg ↔ ¬ WellFormed arg := by
  unfold Malformed WellFormed
  constructor
  · rintro (h | h | ⟨i, hi2, hi6, hi⟩) ⟨hl, h0, h1, h2, h3, h4, h5⟩
    · exact h hl
    · exact h ⟨h0, h1⟩
    · interval_cases i
      · exact hi h2
      · exact hi h3
      · exact hi h4
      · exact hi h5
  · intro h
    by_cases hl : arg.length = 6
    · by_cases hp : arg.getD 0 0 = '0'.toNat ∧
          (arg.getD 1 0 = 'x'.toNat ∨ arg.getD 1 0 = 'X'.toNat)
      · right; right
        by_contra hc
        push_neg at hc
        exact h ⟨hl, hp.1, hp.2, hc 2 (by norm_num) (by norm_num),
          hc 3 (by norm_num) (by norm_num), hc 4 (by norm_num) (by norm_num),
          hc 5 (by norm_num) (by norm_num)⟩
      · exact Or.inr (Or.inl hp)
    · exact Or.inl hl

theorem hexDigitValue_lowerCase (c : Nat) (h : isHexDigit c) :
    hexDigitValue (lowerCase c) = hexDigitValue c := by
  rcases (isHexDigit_iff c).1 h with h | h | h
  · have : lowerCase c = c := by
      unfold lowerCase; simp only [Char.reduceToNat]; rw [if_neg (by omega)]
    rw [this]
  · have : lowerCase c = c := by
      unfold lowerCase; simp only [Char.reduceToNat]; rw [if_neg (by omega)]
    rw [this]
  · have : lowerCase c = c + 32 := by
      unfold lowerCase; simp only [Char.reduceToNat]; rw [if_pos (by omega)]
    rw [this, hexDigitValue_upper c h, hexDigitValue_lower (c + 32) (by omega)]
    omega

theorem getD_map_lowerCase (a : CString) (i : Nat) :
    (a.map lowerCase).getD i 0 = lowerCase (a.getD i 0) := by
  simp only [List.getD_eq_getElem?_getD, List.getElem?_map]
  cases a[i]? <;> simp [lowerCase]

theorem denotedValue_sameUpToCase (a b : CString) (ha : WellFormed a) (hb : WellFormed b)
    (h : SameUpToCase a b) : denotedValue a = denotedValue b := by
  have key : ∀ i, lowerCase (a.getD i 0) = lowerCase (b.getD i 0) := by
    intro i
    rw [← getD_map_lowerCase, ← getD_map_lowerCase, h]
  obtain ⟨_, _, _, a2, a3, a4, a5⟩ := ha
  obtain ⟨_, _, _, b2, b3, b4, b5⟩ := hb
  unfold denotedValue
  rw [← hexDigitValue_lowerCase _ a2, ← hexDigitValue_lowerCase _ a3,
    ← hexDigitValue_lowerCase _ a4, ← hexDigitValue_lowerCase _ a5,
    ← hexDigitValue_lowerCase _ b2, ← hexDigitValue_lowerCase _ b3,
    ← hexDigitValue_lowerCase _ b4, ← hexDigitValue_lowerCase _ b5,
    key 2, key 3, key 4, key 5]

/-- The parser returns `-1` exactly on the strings that are not well-formed. -/
theorem convertHexId_eq_neg_one_iff (arg : CString) :
    convertHexId arg = -1 ↔ ¬ WellFormed arg := by
  constructor
  · intro h hw
    have hv := convertHexId_of_wellFormed arg hw
    rw [hv] at h
    have := Int.natCast_nonneg (denotedValue arg)
    omega
  · exact convertHexId_of_not_wellFormed arg

/-! ## Claims on convertHexId -/

/-- C1: on every six-character string `0`, `x` or `X`, four hexadecimal digits,
`convertHexId` returns the number the four digits denote in base 16, which lies
between 0 and 65535, and two such strings that differ only in letter case give
the same result. -/
theorem convertHexId_value (arg : CString) (h : WellFormed arg) :
    convertHexId arg = (denotedValue arg : Nat) ∧
    0 ≤ convertHexId arg ∧ convertHexId arg ≤ 65535 ∧
    ∀ arg2 : CString, WellFormed arg2 → SameUpToCase arg arg2 →
      convertHexId arg2 = convertHexId arg := by
  have hv := convertHexId_of_wellFormed arg h
  have hb := denotedValue_le arg h
  refine ⟨hv, ?_, ?_, ?_⟩
  · rw [hv]; exact Int.natCast_nonneg _
  · rw [hv]; exact_mod_cast hb
  · intro arg2 h2 hs
    rw [hv, convertHexId_of_wellFormed arg2 h2, denotedValue_sameUpToCase arg arg2 h h2 hs]

/-- Witness of C1 at `0x04Be` against `0X04bE`. -/
theorem convertHexId_value_witness :
    WellFormed (cstr "0x04Be") ∧ convertHexId (cstr "0x04Be") = 1214 ∧
    convertHexId (cstr "0X04bE") = 1214 :=
  have w := convertHexId_value (cstr "0x04Be") (by decide)
  ⟨by decide, w.1.trans (by decide), (w.2.2.2 (cstr "0X04bE") (by decide) (by decide)).trans
    (w.1.trans (by decide))⟩

/-- C2: `convertHexId` returns `-1` exactly on the malformed strings (wrong
length, or missing `0x`/`0X` prefix, or a non-hexadecimal character among the
last four). -/
theorem convertHexId_invalid_iff (arg : CString) :
    convertHexId arg = -1 ↔ Malformed arg := by
  rw [malformed_iff]
  exact convertHexId_eq_neg_one_iff arg

/-! ## Lemmas on main -/

theorem Run.after_after (a b : List Event) (r : Run) :
    Run.after a (Run.after b r) = Run.after (a ++ b) r := by
  simp [Run.after]

theorem Run.after_status (a : List Event) (r : Run) : (Run.after a r).status = r.status := rfl

theorem Run.after_count (a : List Event) (r : Run) : (Run.after a r).count = r.count := rfl

theorem Run.after_trace (a : List Event) (r : Run) : (Run.after a r).trace = a ++ r.trace := rfl

/-- Below `2 ^ 31` the counter counts. -/
theorem countAfter_eq (c : Int) (n : Nat) (h0 : 0 ≤ c) (h1 : c + n < 2 ^ 31) :
    countAfter c n = c + n := by
  induction n generalizing c with
  | zero => simp [countAfter]
  | succ k ih =>
    have hw : wrapSInt32 (c + 1) = c + 1 := by
      unfold wrapSInt32
      push_cast at h1
      omega
    rw [countAfter, hw, ih (c + 1) (by omega) (by push_cast at h1 ⊢; omega)]
    push_cast
    ring

/-- A complete iteration: the query and every tested step succeed and the loop
goes on. -/
theorem whileLoop_cons_ok (s : Bool) (p v : Int) (d : Device) (rest : List Device) (c : Int)
    (hd : d.CheckedOk s) (hq : d.queryInterfaceErr = 0) :
    whileLoop s p v (d :: rest) c
      = Run.after (transitionEvents s d) (whileLoop s p v rest (wrapSInt32 (c + 1))) := by
  obtain ⟨h1, h2, h3, h4, h5, h6⟩ := hd
  simp [whileLoop, CHECKRETURN, Run.after, transitionEvents, h1, h2, h3, h4, h5, h6, hq]

/-- The loop runs through a prefix of devices on which the query and the
tested steps succeed. -/
theorem whileLoop_append_ok (s : Bool) (p v : Int) (pre tail : List Device) (c : Int)
    (hpre : ∀ x ∈ pre, x.CheckedOk s ∧ x.queryInterfaceErr = 0) :
    whileLoop s p v (pre ++ tail) c
      = Run.after (pre.flatMap (transitionEvents s))
          (whileLoop s p v tail (countAfter c pre.length)) := by
  induction pre generalizing c with
  | nil => simp [Run.after, countAfter]
  | cons x xs ih =>
    rw [List.cons_append,
      whileLoop_cons_ok s p v x _ c (hpre x (by simp)).1 (hpre x (by simp)).2,
      ih (wrapSInt32 (c + 1)) (fun y hy => hpre y (by simp [hy])), Run.after_after]
    simp only [List.flatMap_cons, List.length_cons, countAfter]

/-- The iteration on a device whose query succeeds and on which a tested step
fails: the run stops with `-1` after the failing call and its message,
whatever follows in the iterator. -/
theorem whileLoop_cons_fail (s : Bool) (p v : Int) (d : Device) (c : Int)
    (hd : ¬ d.CheckedOk s) (hq : d.queryInterfaceErr = 0) (rest : List Device) :
    whileLoop s p v (d :: rest) c = ⟨some (-1), some c, abortedTransition s d⟩ := by
  unfold Device.CheckedOk at hd
  simp only [whileLoop, CHECKRETURN, Run.after, abortedTransition, hq]
  split_ifs <;> simp_all

theorem count_next_abortedTransition (s : Bool) (d : Device) (hd : ¬ d.CheckedOk s) :
    (abortedTransition s d).count .IOIteratorNext = 1 := by
  unfold Device.CheckedOk at hd
  unfold abortedTransition
  split_ifs <;> simp_all [List.count_cons]

theorem count_release_abortedTransition (s : Bool) (d : Device) (o : IOObject) :
    (abortedTransition s d).count (.IOObjectRelease o) = 0 := by
  unfold abortedTransition
  split_ifs <;> simp [List.count_cons]

theorem convertHexId_ne_of_wellFormed (a : CString) (h : WellFormed a) :
    convertHexId a ≠ -1 := by
  intro hc
  exact (convertHexId_eq_neg_one_iff a).1 hc h

/-- With valid arguments `main` reaches the host with the parsed identifiers
and the flag of the action keyword. -/
theorem main_of_validArgs (h : Host) (argv : List CString) (hargs : ValidArgs argv) :
    main h argv = hostPhase h (directive argv) (convertHexId (argv.getD 2 []))
      (convertHexId (argv.getD 3 [])) := by
  obtain ⟨hl, ha, hp, hv⟩ := hargs
  have hp1 := convertHexId_ne_of_wellFormed _ hp
  have hv1 := convertHexId_ne_of_wellFormed _ hv
  unfold main
  rw [if_neg (by simp [hl])]
  rcases ha with ha | ha
  · rw [if_pos ha]
    unfold mainBody
    simp only [if_neg hp1, if_neg hv1, directive, ha, decide_True]
  · have hne : argv.getD 1 [] ≠ cstr "suspend" := by rw [ha]; decide
    rw [if_neg hne, if_pos ha]
    unfold mainBody
    simp only [if_neg hp1, if_neg hv1, directive, hne, decide_False]

/-- When the setup calls succeed the host phase is the setup events followed
by the loop on the matching devices. -/
theorem hostPhase_of_setupOk (h : Host) (s : Bool) (p v : Int) (hs : SetupOk h) :
    hostPhase h s p v
      = Run.after (setupEvents p v) (whileLoop s p v (h.matching p v) 0) := by
  obtain ⟨h1, h2, h3, h4, h5⟩ := hs
  simp [hostPhase, CHECKRETURN, Run.after, setupEvents, h1, h2, h3, h4, h5]

/-- A host phase that makes the enumeration call has created the dictionary
and its two numbers. -/
theorem setupOk_of_enumerates (h : Host) (s : Bool) (p v : Int)
    (hcall : Event.IOServiceGetMatchingServices ∈ (hostPhase h s p v).trace)
    (herr : h.matchingServicesErr = 0) : SetupOk h := by
  unfold SetupOk
  by_cases h1 : h.masterPortErr = 0
  swap
  · simp [hostPhase, CHECKRETURN, Run.after, h1] at hcall
  cases h2 : h.matcherNull
  swap
  · simp [hostPhase, CHECKRETURN, Run.after, h1, h2] at hcall
  cases h3 : h.productNumberNull
  swap
  · simp [hostPhase, CHECKRETURN, Run.after, h1, h2, h3] at hcall
  cases h4 : h.vendorNumberNull
  swap
  · simp [hostPhase, CHECKRETURN, Run.after, h1, h2, h3, h4] at hcall
  exact ⟨h1, rfl, rfl, rfl, herr⟩

theorem count_release_flatMap (s : Bool) (l : List Device) (n : Nat) :
    (l.flatMap (transitionEvents s)).count (.IOObjectRelease (.usbService n))
      = (l.map Device.usbService).count n := by
  induction l with
  | nil => simp
  | cons x xs ih =>
    simp only [List.flatMap_cons, List.count_append, ih, List.map_cons, List.count_cons]
    simp [transitionEvents, List.count_cons, Nat.add_comm]

theorem count_next_flatMap (s : Bool) (l : List Device) :
    (l.flatMap (transitionEvents s)).count .IOIteratorNext = l.length := by
  induction l with
  | nil => simp
  | cons x xs ih =>
    simp only [List.flatMap_cons, List.count_append, ih, List.length_cons]
    simp [transitionEvents, List.count_cons, Nat.add_comm]

/-- When every query succeeds the loop releases a service at most as often as
the iterator yields it. -/
theorem count_release_whileLoop_le (s : Bool) (p v : Int) (devs : List Device) (c : Int)
    (n : Nat) (hq : ∀ x ∈ devs, x.queryInterfaceErr = 0) :
    (whileLoop s p v devs c).trace.count (.IOObjectRelease (.usbService n))
      ≤ (devs.map Device.usbService).count n := by
  induction devs generalizing c with
  | nil =>
    simp only [whileLoop, Run.after]
    split_ifs <;> simp [List.count_cons]
  | cons x xs ih =>
    have hx := hq x (by simp)
    by_cases hc : x.CheckedOk s
    · rw [whileLoop_cons_ok s p v x xs c hc hx, Run.after_trace, List.count_append,
        List.map_cons, List.count_cons]
      have := ih (wrapSInt32 (c + 1)) (fun y hy => hq y (by simp [hy]))
      have h1 : (transitionEvents s x).count (.IOObjectRelease (.usbService n))
          = if x.usbService = n then 1 else 0 := by
        simp [transitionEvents, List.count_cons]
      rw [h1]
      simp only [beq_iff_eq]
      omega
    · rw [whileLoop_cons_fail s p v x c hc hx xs]
      show (abortedTransition s x).count _ ≤ _
      rw [count_release_abortedTransition]
      exact Nat.zero_le _

/-- The two directives follow the same path through the loop when the host
answers the directive call regardless of its flag. -/
theorem whileLoop_directive (p v : Int) (devs : List Device) (c : Int)
    (hf : ∀ d ∈ devs, d.suspendErr true = d.suspendErr false) :
    (whileLoop false p v devs c).status = (whileLoop true p v devs c).status ∧
    (whileLoop false p v devs c).count = (whileLoop true p v devs c).count ∧
    (whileLoop false p v devs c).trace
      = (whileLoop true p v devs c).trace.map (Event.withDirective false) ∧
    (whileLoop true p v devs c).trace.map (Event.withDirective true)
      = (whileLoop true p v devs c).trace := by
  induction devs generalizing c with
  | nil =>
    simp only [whileLoop, Run.after]
    split_ifs <;> simp [Event.withDirective]
  | cons x xs ih =>
    have hx := hf x (by simp)
    obtain ⟨i1, i2, i3, i4⟩ := ih (wrapSInt32 (c + 1)) (fun y hy => hf y (by simp [hy]))
    simp only [whileLoop, CHECKRETURN, Run.after, hx]
    split_ifs <;> simp [Event.withDirective, i1, i2, i3, i4]

theorem hostPhase_directive (h : Host) (p v : Int)
    (hf : ∀ d ∈ h.matching p v, d.suspendErr true = d.suspendErr false) :
    (hostPhase h false p v).status = (hostPhase h true p v).status ∧
    (hostPhase h false p v).count = (hostPhase h true p v).count ∧
    (hostPhase h false p v).trace
      = (hostPhase h true p v).trace.map (Event.withDirective false) ∧
    (hostPhase h true p v).trace.map (Event.withDirective true)
      = (hostPhase h true p v).trace := by
  obtain ⟨i1, i2, i3, i4⟩ := whileLoop_directive p v (h.matching p v) 0 hf
  simp only [hostPhase, CHECKRETURN, Run.after]
  split_ifs <;> simp [Event.withDirective, i1, i2, i3, i4]

/-- With valid arguments and a successful setup, `main` runs through every
leading device on which the query and the tested steps succeed and continues
with the loop on the remaining ones. -/
theorem main_run_prefix (h : Host) (argv : List CString) (pre tail : List Device)
    (hargs : ValidArgs argv) (hsetup : SetupOk h)
    (hdevs : matchingDevices h argv = pre ++ tail)
    (hpre : ∀ x ∈ pre, x.CheckedOk (directive argv) ∧ x.queryInterfaceErr = 0) :
    main h argv
      = Run.after (setupEvents (productIdOf argv) (vendorIdOf argv)
          ++ pre.flatMap (transitionEvents (directive argv)))
          (whileLoop (directive argv) (productIdOf argv) (vendorIdOf argv) tail
            (countAfter 0 pre.length)) := by
  have hz : h.matching (convertHexId (argv.getD 2 [])) (convertHexId (argv.getD 3 []))
      = pre ++ tail := hdevs
  rw [main_of_validArgs h argv hargs, hostPhase_of_setupOk h _ _ _ hsetup, hz,
    whileLoop_append_ok _ _ _ pre tail 0 hpre, Run.after_after]
  rfl

theorem count_release_setupEvents (p v : Int) (o : IOObject) :
    (setupEvents p v).count (.IOObjectRelease o) = 0 := by
  simp [setupEvents, List.count_cons]

theorem count_next_setupEvents (p v : Int) :
    (setupEvents p v).count .IOIteratorNext = 0 := by
  simp [setupEvents, List.count_cons]

/-! ## Claims on main -/

/-- C3: with valid arguments, N ≥ 1 matching devices, N below `2 ^ 31` so that
the `SInt32` counter can hold it, and every host call succeeding, `main` runs
the complete transition on each device in enumeration order, leaves the loop
with `count` equal to N and returns 0. -/
theorem main_all_succeed (h : Host) (argv : List CString) (N : Nat)
    (hargs : ValidArgs argv) (hsetup : SetupOk h) (hN : 1 ≤ N) (hbound : N < 2 ^ 31)
    (hlen : (matchingDevices h argv).length = N)
    (hall : ∀ d ∈ matchingDevices h argv, d.AllSucceed (directive argv)) :
    (main h argv).status = some 0 ∧ (main h argv).count = some (N : Int) ∧
    (main h argv).trace
      = setupEvents (productIdOf argv) (vendorIdOf argv)
        ++ (matchingDevices h argv).flatMap (transitionEvents (directive argv))
        ++ closingEvents := by
  have hok : ∀ d ∈ matchingDevices h argv,
      d.CheckedOk (directive argv) ∧ d.queryInterfaceErr = 0 := by
    intro d hd
    obtain ⟨a1, a2, a3, _, a5, a6, a7, a8, _⟩ := hall d hd
    exact ⟨⟨a1, a2, a5, a6, a7, a8⟩, a3⟩
  have hmain := main_run_prefix h argv (matchingDevices h argv) [] hargs hsetup
    (List.append_nil _).symm hok
  have hcount : countAfter 0 (matchingDevices h argv).length = (N : Int) := by
    rw [hlen, countAfter_eq 0 N (le_refl 0) (by exact_mod_cast (by omega : (0 : Int) + N < 2 ^ 31))]
    simp
  have hN0 : (N : Int) ≠ 0 := by exact_mod_cast (by omega : N ≠ 0)
  rw [hmain, hcount]
  simp [Run.after, whileLoop, hN0, closingEvents]

/-- Witness of C3: two devices, all calls succeeding. -/
theorem main_all_succeed_witness :
    ValidArgs suspendArgs ∧ SetupOk (hostWith [okDevice 7, okDevice 9]) ∧
    (main (hostWith [okDevice 7, okDevice 9]) suspendArgs).status = some 0 ∧
    (main (hostWith [okDevice 7, okDevice 9]) suspendArgs).count = some 2 :=
  have w := main_all_succeed (hostWith [okDevice 7, okDevice 9]) suspendArgs 2
    (by decide) (by decide) (by decide) (by norm_num) (by decide) (by decide)
  ⟨by decide, by decide, w.1, w.2.1⟩

/-- C4: with valid arguments, the master port and the enumeration call
succeeding and no device enumerated, `main` releases the iterator and the
master port, prints the not-found message with the two identifiers given and
returns -1; it prints no other message. -/
theorem main_not_found (h : Host) (argv : List CString)
    (hargs : ValidArgs argv) (hport : h.masterPortErr = 0)
    (hcall : Event.IOServiceGetMatchingServices ∈ (main h argv).trace)
    (henum : h.matchingServicesErr = 0) (hzero : matchingDevices h argv = []) :
    main h argv = ⟨some (-1), some 0, setupEvents (productIdOf argv) (vendorIdOf argv)
      ++ closingEvents ++ [.fprintf (.notFound (productIdOf argv) (vendorIdOf argv))]⟩ ∧
    productIdOf argv = (denotedValue (argv.getD 2 []) : Nat) ∧
    vendorIdOf argv = (denotedValue (argv.getD 3 []) : Nat) ∧
    ∀ m, Event.fprintf m ∈ (main h argv).trace →
      m = .notFound (productIdOf argv) (vendorIdOf argv) := by
  have hm := main_of_validArgs h argv hargs
  rw [hm] at hcall
  have _ := hport
  have hsetup := setupOk_of_enumerates h _ _ _ hcall henum
  have hmain : main h argv = ⟨some (-1), some 0,
      setupEvents (productIdOf argv) (vendorIdOf argv)
      ++ closingEvents ++ [.fprintf (.notFound (productIdOf argv) (vendorIdOf argv))]⟩ := by
    rw [hm, hostPhase_of_setupOk h _ _ _ hsetup]
    have hz : h.matching (convertHexId (argv.getD 2 [])) (convertHexId (argv.getD 3 [])) = [] :=
      hzero
    rw [hz]
    simp [Run.after, whileLoop, closingEvents, productIdOf, vendorIdOf]
  refine ⟨hmain, convertHexId_of_wellFormed _ hargs.2.2.1, convertHexId_of_wellFormed _ hargs.2.2.2,
    ?_⟩
  intro m hmem
  rw [hmain] at hmem
  simpa [setupEvents, closingEvents] using hmem

/-- Witness of C4: a host that enumerates no device. -/
theorem main_not_found_witness :
    ValidArgs suspendArgs ∧ matchingDevices (hostWith []) suspendArgs = [] ∧
    (main (hostWith []) suspendArgs).status = some (-1) ∧
    (main (hostWith []) suspendArgs).trace.getLast? = some (.fprintf (.notFound 64 1118)) :=
  have w := main_not_found (hostWith []) suspendArgs (by decide) (by decide) (by decide)
    (by decide) rfl
  ⟨by decide, rfl, by rw [w.1], by rw [w.1]; decide⟩

/-- C5, counterexample: the service release of the first of two devices
answers a non-zero status, and `main` still advances the iterator, runs the
transition on the second device and returns 0. -/
theorem abort_on_any_status_counterexample :
    (releaseStatusDevice 7).objectReleaseErr ≠ 0 ∧
    (main (hostWith [releaseStatusDevice 7, okDevice 9]) suspendArgs).status = some 0 ∧
    (main (hostWith [releaseStatusDevice 7, okDevice 9]) suspendArgs).trace.count
      .IOIteratorNext = 3 ∧
    Event.USBDeviceSuspend 9 true ∈
      (main (hostWith [releaseStatusDevice 7, okDevice 9]) suspendArgs).trace := by
  decide

/-- C5, amended: when the interface query and the tested steps succeed on the
devices before device k, the interface query does not fail on device k and a
tested step fails on device k (plugin creation, a null plugin, open,
directive, close or interface release), `main` returns -1; its trace is the
setup, the complete transitions of the devices before k, then the calls on
device k up to the first failing one followed by the message of that call and
nothing else; the iterator has been advanced k+1 times; and the run is the
same whatever devices follow device k. -/
theorem main_abort_on_checked_failure (h : Host) (argv : List CString)
    (pre : List Device) (d : Device) (rest : List Device)
    (hargs : ValidArgs argv) (hsetup : SetupOk h)
    (hdevs : matchingDevices h argv = pre ++ d :: rest)
    (hpre : ∀ x ∈ pre, x.CheckedOk (directive argv) ∧ x.queryInterfaceErr = 0)
    (hq : d.queryInterfaceErr = 0)
    (hd : ¬ d.CheckedOk (directive argv)) :
    (main h argv).status = some (-1) ∧
    (main h argv).trace
      = setupEvents (productIdOf argv) (vendorIdOf argv)
        ++ pre.flatMap (transitionEvents (directive argv))
        ++ abortedTransition (directive argv) d ∧
    (main h argv).trace.count .IOIteratorNext = pre.length + 1 ∧
    ∀ rest2, main { h with matching := fun _ _ => pre ++ d :: rest2 } argv = main h argv := by
  have hmain := main_run_prefix h argv pre (d :: rest) hargs hsetup hdevs hpre
  rw [whileLoop_cons_fail _ _ _ d _ hd hq rest] at hmain
  have htrace : (main h argv).trace
      = setupEvents (productIdOf argv) (vendorIdOf argv)
        ++ pre.flatMap (transitionEvents (directive argv))
        ++ abortedTransition (directive argv) d := by
    rw [hmain, Run.after_trace]
  refine ⟨?_, htrace, ?_, ?_⟩
  · rw [hmain, Run.after_status]
  · rw [htrace, List.count_append, List.count_append, count_next_setupEvents,
      count_next_flatMap, count_next_abortedTransition _ d hd]
    omega
  · intro rest2
    have h2 := main_run_prefix { h with matching := fun _ _ => pre ++ d :: rest2 } argv pre
      (d :: rest2) hargs hsetup rfl hpre
    rw [whileLoop_cons_fail _ _ _ d _ hd hq rest2] at h2
    rw [h2, hmain]

/-- Witness of C5 amended: the directive fails on the second of three devices;
the run ends with the directive call on that device and its message. -/
theorem main_abort_on_checked_failure_witness :
    ¬ (suspendFailDevice 8).CheckedOk (directive suspendArgs) ∧
    (main (hostWith [okDevice 7, suspendFailDevice 8, okDevice 9]) suspendArgs).status
      = some (-1) ∧
    (main (hostWith [okDevice 7, suspendFailDevice 8, okDevice 9]) suspendArgs).trace
      = setupEvents 64 1118 ++ transitionEvents true (okDevice 7)
        ++ [.IOIteratorNext, .IOCreatePlugInInterfaceForService 8, .QueryInterface 8,
            .IODestroyPlugInInterface 8, .USBDeviceOpen 8, .USBDeviceSuspend 8 true,
            .fprintf (.errorSuspendResume (-536870163))] :=
  have w := main_abort_on_checked_failure (hostWith [okDevice 7, suspendFailDevice 8, okDevice 9])
    suspendArgs [okDevice 7] (suspendFailDevice 8) [okDevice 9] (by decide) (by decide) rfl
    (by decide) rfl (by decide)
  ⟨by decide, w.1, w.2.1.trans (by decide)⟩

/-- C6, at the failing input: the interface query on the first of two devices
answers `E_NOINTERFACE`; `main` prints no message and does not return -1: after
destroying the plugin it reaches the call through `deviceInterface` on line
194, which the failed query has not set, and the run has no defined status. -/
theorem query_failure_not_handled :
    (queryFailDevice 7).queryInterfaceErr ≠ 0 ∧
    main (hostWith [queryFailDevice 7, okDevice 9]) suspendArgs
      = ⟨none, some 0, setupEvents 64 1118
          ++ [.IOIteratorNext, .IOCreatePlugInInterfaceForService 7, .QueryInterface 7,
              .IODestroyPlugInInterface 7]⟩ := by
  decide

/-- C7, counterexample: the open fails on the only device; its handle was
returned by the iterator and `main` returns -1 without releasing it. -/
theorem release_exactly_once_counterexample :
    (main (hostWith [openFailDevice 7]) suspendArgs).trace
      = setupEvents 64 1118
        ++ [.IOIteratorNext, .IOCreatePlugInInterfaceForService 7, .QueryInterface 7,
            .IODestroyPlugInInterface 7, .USBDeviceOpen 7,
            .fprintf (.errorOpening (-536870203))] ∧
    (main (hostWith [openFailDevice 7]) suspendArgs).status = some (-1) ∧
    (main (hostWith [openFailDevice 7]) suspendArgs).trace.count
      (.IOObjectRelease (.usbService 7)) = 0 := by
  decide

/-- C7, amended: in a run in which every interface query succeeds and handles
are distinct, for a device that the iterator returns (the tested steps on the
devices before it having succeeded): its handle is released exactly once when
the tested steps on it succeed, and is not released, `main` returning -1, when
one of them fails; no handle is released more than once. -/
theorem handle_release_count (h : Host) (argv : List CString)
    (pre : List Device) (d : Device) (rest : List Device)
    (hargs : ValidArgs argv) (hsetup : SetupOk h)
    (hdevs : matchingDevices h argv = pre ++ d :: rest)
    (hpre : ∀ x ∈ pre, x.CheckedOk (directive argv))
    (hquery : ∀ x ∈ matchingDevices h argv, x.queryInterfaceErr = 0)
    (hnodup : ((matchingDevices h argv).map Device.usbService).Nodup) :
    (d.CheckedOk (directive argv) →
      (main h argv).trace.count (.IOObjectRelease (.usbService d.usbService)) = 1) ∧
    (¬ d.CheckedOk (directive argv) →
      (main h argv).trace.count (.IOObjectRelease (.usbService d.usbService)) = 0 ∧
      (main h argv).status = some (-1)) ∧
    ∀ n, (main h argv).trace.count (.IOObjectRelease (.usbService n)) ≤ 1 := by
  rw [hdevs] at hquery
  have hqd : d.queryInterfaceErr = 0 := hquery d (by simp)
  have hqtail : ∀ x ∈ d :: rest, x.queryInterfaceErr = 0 :=
    fun x hx => hquery x (List.mem_append_right _ hx)
  have hpre2 : ∀ x ∈ pre, x.CheckedOk (directive argv) ∧ x.queryInterfaceErr = 0 :=
    fun x hx => ⟨hpre x hx, hquery x (List.mem_append_left _ hx)⟩
  have hmain := main_run_prefix h argv pre (d :: rest) hargs hsetup hdevs hpre2
  have hcount : ∀ n, (main h argv).trace.count (.IOObjectRelease (.usbService n))
      = (pre.map Device.usbService).count n
        + (whileLoop (directive argv) (productIdOf argv) (vendorIdOf argv) (d :: rest)
            (countAfter 0 pre.length)).trace.count (.IOObjectRelease (.usbService n)) := by
    intro n
    rw [hmain, Run.after_trace, List.count_append, List.count_append,
      count_release_setupEvents, count_release_flatMap]
    omega
  have hle : ∀ n, (pre.map Device.usbService).count n
      + ((d :: rest).map Device.usbService).count n ≤ 1 := by
    intro n
    have := List.nodup_iff_count_le_one.1 hnodup n
    rw [hdevs, List.map_append, List.count_append] at this
    exact this
  have hall : ∀ n, (main h argv).trace.count (.IOObjectRelease (.usbService n)) ≤ 1 := by
    intro n
    have h1 := count_release_whileLoop_le (directive argv) (productIdOf argv) (vendorIdOf argv)
      (d :: rest) (countAfter 0 pre.length) n hqtail
    have h2 := hle n
    rw [hcount n]
    omega
  refine ⟨?_, ?_, hall⟩
  · intro hd
    have h1 := hall d.usbService
    have h2 : 1 ≤ (main h argv).trace.count (.IOObjectRelease (.usbService d.usbService)) := by
      rw [hcount, whileLoop_cons_ok _ _ _ d rest _ hd hqd, Run.after_trace, List.count_append]
      have : (transitionEvents (directive argv) d).count
          (.IOObjectRelease (.usbService d.usbService)) = 1 := by
        simp [transitionEvents, List.count_cons]
      omega
    omega
  · intro hd
    have hfail := whileLoop_cons_fail (directive argv) (productIdOf argv) (vendorIdOf argv) d
      (countAfter 0 pre.length) hd hqd rest
    constructor
    · have h2 := hle d.usbService
      rw [List.map_cons, List.count_cons_self] at h2
      rw [hcount, hfail]
      show _ + (abortedTransition _ d).count _ = 0
      rw [count_release_abortedTransition]
      omega
    · rw [hmain, Run.after_status, hfail]

/-- Witness of C7 amended: the first device is processed and released once, the
directive fails on the second, which is not released. -/
theorem handle_release_count_witness :
    (main (hostWith [okDevice 7, suspendFailDevice 8, okDevice 9]) suspendArgs).trace.count
      (.IOObjectRelease (.usbService 7)) = 1 ∧
    (main (hostWith [okDevice 7, suspendFailDevice 8, okDevice 9]) suspendArgs).trace.count
      (.IOObjectRelease (.usbService 8)) = 0 :=
  ⟨(handle_release_count (hostWith [okDevice 7, suspendFailDevice 8, okDevice 9]) suspendArgs
      [] (okDevice 7) [suspendFailDevice 8, okDevice 9] (by decide) (by decide) rfl
      (by decide) (by decide) (by decide)).1 (by decide),
   ((handle_release_count (hostWith [okDevice 7, suspendFailDevice 8, okDevice 9]) suspendArgs
      [okDevice 7] (suspendFailDevice 8) [okDevice 9] (by decide) (by decide) rfl
      (by decide) (by decide) (by decide)).2.1 (by decide)).1⟩
/-- C8: with four arguments of which the action keyword is neither `suspend`
nor `resume`, or the product or the vendor identifier is malformed, `main`
returns -1 having printed one message on the error stream and made no call
into the host. -/
theorem main_usage_error (h : Host) (argv : List CString) (hlen : argv.length = 4)
    (hbad : (argv.getD 1 [] ≠ cstr "suspend" ∧ argv.getD 1 [] ≠ cstr "resume") ∨
      Malformed (argv.getD 2 []) ∨ Malformed (argv.getD 3 [])) :
    (main h argv).status = some (-1) ∧ (∃ m, (main h argv).trace = [.fprintf m]) ∧
    ∀ e ∈ (main h argv).trace, e.isHostCall = false := by
  have key : ∃ m, main h argv = ⟨some (-1), none, [.fprintf m]⟩ := by
    unfold main
    rw [if_neg (by simp [hlen])]
    have body : ∀ s, (Malformed (argv.getD 2 []) ∨ Malformed (argv.getD 3 [])) →
        ∃ m, mainBody h s argv = ⟨some (-1), none, [.fprintf m]⟩ := by
      intro s hm
      unfold mainBody
      by_cases hp : convertHexId (argv.getD 2 []) = -1
      · exact ⟨.invalidProductId (argv.getD 2 []), by simp only [hp, if_true]⟩
      · by_cases hv : convertHexId (argv.getD 3 []) = -1
        · exact ⟨.invalidVendorId (argv.getD 3 []), by simp only [hp, hv, if_true, if_false]⟩
        · rcases hm with hm | hm
          · exact absurd ((convertHexId_eq_neg_one_iff _).2 ((malformed_iff _).1 hm)) hp
          · exact absurd ((convertHexId_eq_neg_one_iff _).2 ((malformed_iff _).1 hm)) hv
    by_cases ha : argv.getD 1 [] = cstr "suspend"
    · rw [if_pos ha]
      rcases hbad with hb | hb
      · exact absurd ha hb.1
      · exact body true hb
    · rw [if_neg ha]
      by_cases hr : argv.getD 1 [] = cstr "resume"
      · rw [if_pos hr]
        rcases hbad with hb | hb
        · exact absurd hr hb.2
        · exact body false hb
      · rw [if_neg hr]
        exact ⟨_, rfl⟩
  obtain ⟨m, hm⟩ := key
  rw [hm]
  refine ⟨rfl, ⟨m, rfl⟩, ?_⟩
  intro e he
  simp only [List.mem_singleton] at he
  rw [he]
  rfl

/-- Witness of C8: a vendor identifier with a non-hexadecimal digit. -/
theorem main_usage_error_witness :
    Malformed (cstr "0x04g5") ∧
    (main (hostWith [okDevice 7])
      [cstr "usbpower", cstr "suspend", cstr "0x0040", cstr "0x04g5"]).status = some (-1) :=
  have hm : Malformed (cstr "0x04g5") := Or.inr (Or.inr ⟨4, by decide, by decide, by decide⟩)
  ⟨hm, (main_usage_error (hostWith [okDevice 7])
    [cstr "usbpower", cstr "suspend", cstr "0x0040", cstr "0x04g5"] rfl
    (Or.inr (Or.inr hm))).1⟩

/-- C9: when `argc` is not 4, `main` prints the usage text and returns 0,
whatever the arguments and the host are: nothing is parsed and no call is made
into the host. -/
theorem main_usage (h : Host) (argv : List CString) (hlen : argv.length ≠ 4) :
    main h argv = ⟨some 0, none, [.printf .usage]⟩ := by
  unfold main
  rw [if_pos hlen]

/-- Witness of C9: the program name and two positional arguments. -/
theorem main_usage_witness :
    [cstr "usbpower", cstr "suspend", cstr "0x0040"].length ≠ 4 ∧
    main (hostWith [okDevice 7]) [cstr "usbpower", cstr "suspend", cstr "0x0040"]
      = ⟨some 0, none, [.printf .usage]⟩ :=
  ⟨by decide, main_usage (hostWith [okDevice 7])
    [cstr "usbpower", cstr "suspend", cstr "0x0040"] (by decide)⟩

/-- C10: on a host whose answer to the directive call does not depend on the
flag, the runs with `suspend` and with `resume` on the same identifiers return
the same status and issue the same events, except that every directive call
carries true in the `suspend` run and false in the `resume` run. -/
theorem suspend_resume_symmetric (h : Host) (a0 p v : CString)
    (hf : ∀ pid vid, ∀ d ∈ h.matching pid vid, d.suspendErr true = d.suspendErr false) :
    (main h [a0, cstr "resume", p, v]).status = (main h [a0, cstr "suspend", p, v]).status ∧
    (main h [a0, cstr "resume", p, v]).trace
      = (main h [a0, cstr "suspend", p, v]).trace.map (Event.withDirective false) ∧
    (main h [a0, cstr "suspend", p, v]).trace.map (Event.withDirective true)
      = (main h [a0, cstr "suspend", p, v]).trace := by
  have hne : cstr "resume" ≠ cstr "suspend" := by decide
  have hs : main h [a0, cstr "suspend", p, v] = mainBody h true [a0, cstr "suspend", p, v] := by
    simp [main]
  have hr : main h [a0, cstr "resume", p, v] = mainBody h false [a0, cstr "resume", p, v] := by
    simp [main, hne]
  rw [hs, hr]
  obtain ⟨i1, _, i3, i4⟩ := hostPhase_directive h (convertHexId p) (convertHexId v)
    (hf (convertHexId p) (convertHexId v))
  simp only [mainBody, List.getD_cons_succ, List.getD_cons_zero]
  split_ifs <;> simp [Event.withDirective, i1, i3, i4]

/-- Witness of C10: the command lines of the usage text on one device. -/
theorem suspend_resume_symmetric_witness :
    (main (hostWith [okDevice 7]) resumeArgs).status
      = (main (hostWith [okDevice 7]) suspendArgs).status ∧
    (main (hostWith [okDevice 7]) resumeArgs).trace
      = (main (hostWith [okDevice 7]) suspendArgs).trace.map (Event.withDirective false) :=
  have w := suspend_resume_symmetric (hostWith [okDevice 7]) (cstr "usbpower") (cstr "0x0040")
    (cstr "0x045e") (by intro _ _ d hd; simp [hostWith] at hd; rw [hd]; rfl)
  ⟨w.1, w.2.1⟩

end UsbPower
